import Mathlib

/-!
Verification of the gisa-backend dispatch/mobilization engine.

This file is a shallow embedding, in Lean 4, of the parts of the repository
that the checked claims are about:

* `gpsTrackingService` — anomaly monitoring (`checkAnomalies`, `createAlert`,
  `isVehicleInEmergency`);
* `geocallService` — external work-order import (`importWorkOrder`,
  `generateWorkOrderCode`);
* `emergencyService` — emergency mobilization/demobilization
  (`mobilizeTeam`, `deactivateEmergency`);
* `workOrderService` — lifecycle transitions (`updateStatus`,
  `updateTeamStatus`, `getTimestampField`) and the multi-criteria scoring
  engine (`calculateOptimalAssignment`, `calculateDistanceScore`,
  `calculateCompetenceScore`, `calculateMaterialsScore`,
  `calculateWorkloadScore`, `calculateETA`, `getScoringWeights`).

Conventions of the embedding:

* The SQL store is modelled as explicit lists of row records; SQL `UPDATE`
  is a `List.map` over the rows, `INSERT` an append, a scalar `SELECT` a
  `List.find?`, and a filtered `SELECT` a `List.filter`.
* Database `NULL` is `Option.none`; nullable JS numbers are `Option ℚ` and
  their JS truthiness (where `0` and `null` are falsy) is the `numFalsy`
  helper.
* Timestamps are abstract integers; the ambient `NOW()` of a call is an
  explicit `now` argument.  The 24-hour dedup window of the anomaly monitor
  measures time in hours.
* Several service methods in the source destructure the row array returned
  by `sequelize.query(..., { type: QueryTypes.SELECT })` as
  `const [x] = rows`, binding the FIRST ROW (or `undefined`) to `x`, and
  then use `x` as if it were the whole array (`x.length`, `x[0]`,
  `for (const y of x)`).  The embedding models these sites faithfully:
  a property read on `undefined` or an iteration over a plain object is a
  thrown `TypeError` (the surrounding `try`/`catch` decides whether it is
  swallowed or re-thrown), and `row.length` is `undefined`, so a
  `row.length > 0` guard is `false`.
* A thrown JS error is `Except.error`; methods that mutate the store and
  then throw return the mutated store together with the error, because the
  source issues its queries without a transaction.
-/

namespace Gisa

/-- A JavaScript error escaping a service method: either a `TypeError`
raised by the runtime, or an `Error` constructed with a message. -/
inductive JsError where
  | typeError : JsError
  | message : String → JsError
deriving DecidableEq, Repr

/-- JS truthiness test for a nullable number: `null`/`undefined` (= `none`)
and `0` are falsy, every other number is truthy. -/
def numFalsy : Option ℚ → Bool
  | none => true
  | some q => decide (q = 0)

end Gisa

namespace Gisa.Gps

/-! Embedding of `gpsTrackingService.js` (src/unnamed/part_000, third
module): the anomaly monitor over the `vehicle_alerts`, `vehicles`,
`emergencies` and `emergency_teams` tables. -/

/-- A row of the `vehicle_alerts` table. -/
structure VehicleAlert where
  vehicle_id : Nat
  alert_type : String
  description : String
  severity : String
  is_resolved : Bool
  created_at : Int
deriving DecidableEq, Repr

/-- A row of the `vehicles` table (the columns the monitor touches). -/
structure Vehicle where
  id : Nat
  assigned_team_id : Option Nat
deriving DecidableEq, Repr

/-- A row of the `emergencies` table (the columns the monitor touches). -/
structure EmergencyRow where
  id : Nat
  status : String
deriving DecidableEq, Repr

/-- A row of the `emergency_teams` table (the columns the monitor touches). -/
structure EmergencyTeamRow where
  emergency_id : Nat
  team_id : Nat
  status : String
deriving DecidableEq, Repr

/-- The slice of the store visible to the GPS tracking service. -/
structure GpsDb where
  vehicle_alerts : List VehicleAlert
  vehicles : List Vehicle
  emergencies : List EmergencyRow
  emergency_teams : List EmergencyTeamRow
deriving DecidableEq, Repr

/-- The dedup query of `createAlert`: unresolved alerts of the given
`(vehicle, type)` created within the last 24 hours (`created_at >
DATE_SUB(NOW(), INTERVAL 24 HOUR)`), with `LIMIT 1`.  `now` is in hours. -/
def unresolvedRecentAlerts (db : GpsDb) (now : Int) (vehicleId : Nat)
    (alertType : String) : List VehicleAlert :=
  (db.vehicle_alerts.filter fun a =>
    a.vehicle_id == vehicleId && a.alert_type == alertType &&
    !a.is_resolved && decide (a.created_at > now - 24)).take 1

/-- `createAlert(vehicleId, alertType, description, severity)`.

The source destructures the dedup query's row array as
`const [existing] = await sequelize.query(...)`, so `existing` is the first
row or `undefined`, and then tests `existing.length > 0`:

* no matching row: `existing` is `undefined`, the `existing.length` read
  throws a `TypeError` which the method's own `catch` swallows — the
  `INSERT` is never reached and no alert is created;
* a matching row: `existing` is a plain row object, `existing.length` is
  `undefined`, `undefined > 0` is `false`, so the guard falls through and
  the `INSERT` runs, creating a duplicate alert. -/
def createAlert (db : GpsDb) (now : Int) (vehicleId : Nat)
    (alertType description severity : String) : GpsDb :=
  match (unresolvedRecentAlerts db now vehicleId alertType).head? with
  | none => db
  | some _ =>
      { db with vehicle_alerts := db.vehicle_alerts ++
          [⟨vehicleId, alertType, description, severity, false, now⟩] }

/-- `isVehicleInEmergency(vehicleId)`: counts `emergency_teams` rows joined
to an active emergency and to the vehicle's assigned team, with mobilized
statuses; returns whether the count is positive.  (This method destructures
the single `COUNT(*)` row correctly.) -/
def isVehicleInEmergency (db : GpsDb) (vehicleId : Nat) : Bool :=
  0 < (db.emergency_teams.filter fun et =>
    (db.emergencies.any fun e =>
      e.id == et.emergency_id && (e.status == "attiva" || e.status == "in_gestione")) &&
    (db.vehicles.any fun v =>
      v.id == vehicleId && v.assigned_team_id == some et.team_id) &&
    (et.status == "allertata" || et.status == "in_viaggio" || et.status == "sul_posto")).length

/-- `checkAnomalies(vehicleId, speed)`: speed above 90 km/h raises a
`velocita_eccessiva` alert of severity `medium`; a local hour in
`[22,24) ∪ [0,6)` raises a `uso_fuori_orario` alert of severity `low`
unless the vehicle is mobilized for an active emergency.  The interpolated
descriptions of the source are abstracted to fixed strings. -/
def checkAnomalies (db : GpsDb) (now : Int) (currentHour : Nat)
    (vehicleId : Nat) (speed : ℚ) : GpsDb :=
  let db1 :=
    if 90 < speed then
      createAlert db now vehicleId ("velocita_eccessiva") ("Velocita rilevata") ("medium")
    else db
  if 22 ≤ currentHour || currentHour < 6 then
    if isVehicleInEmergency db1 vehicleId then db1
    else createAlert db1 now vehicleId ("uso_fuori_orario") ("Movimento rilevato") ("low")
  else db1

/-- A store with no alerts at all. -/
def freshDb : GpsDb := ⟨[], [⟨1, none⟩], [], []⟩

/-- A store holding one unresolved `velocita_eccessiva` alert for vehicle 1,
created one hour before the reference instant 100. -/
def dupDb : GpsDb :=
  ⟨[⟨1, "velocita_eccessiva", "Velocita rilevata", "medium", false, 99⟩],
   [⟨1, none⟩], [], []⟩

end Gisa.Gps

namespace Gisa

/-- C1: the claim states that alert creation is deduplicated (no new alert
of a `(vehicle, type)` while an unresolved one of the last 24 hours exists)
and that a fresh speed-95 report creates exactly one `velocita_eccessiva`
alert.  The code does the opposite on both counts, because `createAlert`
destructures the dedup query's first row into `existing` and tests
`existing.length > 0`: a fresh speed-95 report at hour 10 creates no alert
at all (a swallowed `TypeError`), and a speed-95 report one hour after an
unresolved `velocita_eccessiva` alert for the same vehicle inserts a
duplicate, leaving two unresolved alerts of that `(vehicle, type)`. -/
theorem C1_createAlert_dedup_inverted :
    (Gps.checkAnomalies Gps.freshDb 100 10 1 95).vehicle_alerts = [] ∧
    ((Gps.checkAnomalies Gps.dupDb 100 10 1 95).vehicle_alerts.filter fun a =>
        a.vehicle_id == 1 && a.alert_type == "velocita_eccessiva" &&
        !a.is_resolved).length = 2 := by
  constructor
  · rfl
  · rfl

end Gisa

namespace Gisa.Geocall

/-! Embedding of `geocallService.js` (src/src/routes/workOrderRoutes.js,
second module of the concatenated file): import of external (GEOCALL) work
orders into the local `work_orders` table. -/

/-- A row of the `work_orders` table (the columns the import touches);
`geocall_id` is the external id. -/
structure WorkOrderRow where
  id : Nat
  geocall_id : Option Nat
  code : String
  priority : String
  status : String
deriving DecidableEq, Repr

/-- The slice of state visible to the import: the `work_orders` table, the
ids of orders for which a delayed auto-assignment trigger has been
scheduled (the `setTimeout` of the source), and the next fresh row id. -/
structure GeoDb where
  work_orders : List WorkOrderRow
  auto_assign_scheduled : List Nat
  next_id : Nat
deriving DecidableEq, Repr

/-- The result object `{ id, geocall_id }` of a successful import. -/
structure ImportOk where
  id : Nat
  geocall_id : Nat
deriving DecidableEq, Repr

/-- `generateWorkOrderCode()`.

The source binds the single `COUNT(*)` row to `count` via
`const [count] = await sequelize.query(...)` and then reads
`count[0].count`: array-indexing the plain row object yields `undefined`,
and the `.count` read on `undefined` throws a `TypeError`, so the method
always throws before producing a code.  (The count itself — this month's
order total — is irrelevant to the outcome.) -/
def generateWorkOrderCode (db : GeoDb) : Except JsError String :=
  match ([db.work_orders.length] : List Nat).head? with
  | none => Except.error JsError.typeError
  | some _ => Except.error JsError.typeError

/-- `importWorkOrder(geocallData)` for an external order with external id
`geocallId` and the given priority.

The source destructures the lookup query's rows as
`const [existing] = await sequelize.query(...)` and tests
`existing.length > 0`:

* external id not present: `existing` is `undefined`, the
  `existing.length` read throws a `TypeError`, which the method's `catch`
  re-throws — nothing is inserted and no id is returned;
* external id present: `existing` is a row object, `existing.length` is
  `undefined`, the guard is `false` and the method falls through to the
  insert path — where `generateWorkOrderCode` immediately throws its own
  `TypeError`, so the existing local id is never returned either.

The insert/trigger continuation after the code generation is kept for
faithfulness although it is unreachable. -/
def importWorkOrder (db : GeoDb) (geocallId : Nat) (priority : String) :
    GeoDb × Except JsError ImportOk :=
  match (db.work_orders.filter fun w => w.geocall_id == some geocallId).head? with
  | none => (db, Except.error JsError.typeError)
  | some _ =>
      match generateWorkOrderCode db with
      | Except.error e => (db, Except.error e)
      | Except.ok code =>
          let newId := db.next_id
          let db1 : GeoDb :=
            { db with
              work_orders := db.work_orders ++
                [⟨newId, some geocallId, code, priority, "ricevuto"⟩],
              next_id := db.next_id + 1 }
          let db2 : GeoDb :=
            if priority == "ALTA" then
              { db1 with auto_assign_scheduled := db1.auto_assign_scheduled ++ [newId] }
            else db1
          (db2, Except.ok ⟨newId, geocallId⟩)

/-- A store already holding the import of external order 7 as local work
order 1. -/
def knownDb : GeoDb :=
  ⟨[⟨1, some 7, "ODL-202610-0001", "ALTA", "ricevuto"⟩], [], 2⟩

end Gisa.Geocall

namespace Gisa

/-- C2: the claim states that importing an external order whose external id
is already present returns the existing local id, inserts no duplicate row
and schedules no duplicate auto-assignment trigger.  In the code the dedup
guard `existing.length > 0` is evaluated on the destructured first row, so
it is always `false`, and the import then dies in `generateWorkOrderCode`
(`count[0].count` on a row object): re-importing external id 7 throws a
`TypeError` instead of returning local id 1 (the store is left unchanged
only because the crash precedes the insert), and importing a fresh external
id 99 throws as well, so no import ever succeeds. -/
theorem C2_import_not_idempotent :
    Geocall.importWorkOrder Geocall.knownDb 7 "ALTA" =
      (Geocall.knownDb, Except.error JsError.typeError) ∧
    Geocall.importWorkOrder Geocall.knownDb 99 "ALTA" =
      (Geocall.knownDb, Except.error JsError.typeError) := by
  constructor
  · rfl
  · rfl

end Gisa

namespace Gisa.Emergency

/-! Embedding of `emergencyService.js` (src/unnamed/part_001, second
module): team mobilization and emergency deactivation over the
`emergencies`, `emergency_teams`, `teams` and `work_orders` tables. -/

/-- A row of the `emergencies` table (the columns deactivation touches). -/
structure EmergencyRow where
  id : Nat
  status : String
  deactivated_at : Option Int
  deactivated_by : Option Nat
  updated_at : Int
deriving DecidableEq, Repr

/-- A row of the `emergency_teams` table. -/
structure EmergencyTeamRow where
  emergency_id : Nat
  team_id : Nat
  status : String
  mobilized_at : Option Int
  demobilized_at : Option Int
deriving DecidableEq, Repr

/-- A row of the `teams` table (the columns the coordinator touches). -/
structure TeamRow where
  id : Nat
  status : String
  updated_at : Int
deriving DecidableEq, Repr

/-- A row of the `work_orders` table (the columns `mobilizeTeam` touches). -/
structure WorkOrderRow where
  id : Nat
  assigned_team_id : Option Nat
  status : String
  priority : String
  notes : Option String
deriving DecidableEq, Repr

/-- The slice of the store visible to the emergency coordinator. -/
structure EmDb where
  emergencies : List EmergencyRow
  emergency_teams : List EmergencyTeamRow
  teams : List TeamRow
  work_orders : List WorkOrderRow
deriving DecidableEq, Repr

/-- The note `mobilizeTeam` appends to a suspended order's notes:
`CONCAT(COALESCE(notes, ''), '\nSospeso per emergenza ', :emergencyId)`. -/
def suspendNote (emergencyId : Nat) : String :=
  "\nSospeso per emergenza " ++ toString emergencyId

/-- The `WHERE` condition of the suspension `UPDATE` in `mobilizeTeam`:
assigned to the mobilized team, status in `{assegnato, in_viaggio}` and
priority different from `ALTA`. -/
def suspendCond (teamId : Nat) (w : WorkOrderRow) : Bool :=
  w.assigned_team_id == some teamId &&
  (w.status == "assegnato" || w.status == "in_viaggio") &&
  w.priority != "ALTA"

/-- `mobilizeTeam(emergencyId, teamId, mobilizedBy)`: inserts an
`emergency_teams` row with status `allertata` and `mobilized_at = NOW()`,
sets the team's status to `in_viaggio`, and suspends the team's
non-`ALTA` orders with status in `{assegnato, in_viaggio}`, appending the
emergency note.  (`mobilizedBy` is not stored by the source's queries.) -/
def mobilizeTeam (db : EmDb) (now : Int) (emergencyId teamId : Nat) : EmDb :=
  let db1 : EmDb :=
    { db with emergency_teams := db.emergency_teams ++
        [⟨emergencyId, teamId, "allertata", some now, none⟩] }
  let db2 : EmDb :=
    { db1 with teams := db1.teams.map fun t =>
        if t.id == teamId then { t with status := "in_viaggio", updated_at := now }
        else t }
  { db2 with work_orders := db2.work_orders.map fun w =>
      if suspendCond teamId w then
        { w with status := "sospeso",
                 notes := some ((w.notes.getD "") ++ suspendNote emergencyId) }
      else w }

/-- `deactivateEmergency(emergencyId, deactivatedBy)`.

The first two `UPDATE`s run: the emergency becomes `risolta` with
`deactivated_at`/`deactivated_by` set, and every non-`smobilitata`
`emergency_teams` row of the emergency becomes `smobilitata` with
`demobilized_at = NOW()`.  The source then destructures the
`SELECT team_id FROM emergency_teams ...` rows as
`const [teams] = await sequelize.query(...)`, binding the FIRST row (or
`undefined`) to `teams`, and runs `for (const team of teams)`: iterating a
plain row object (or `undefined`) throws a `TypeError`, which the method's
`catch` re-throws.  The team-restore loop, the timeline insert and the
report generation are therefore never reached, and since the queries run
outside a transaction the first two updates stay committed. -/
def deactivateEmergency (db : EmDb) (now : Int) (emergencyId : Nat)
    (deactivatedBy : Nat) : EmDb × Except JsError Unit :=
  let db1 : EmDb :=
    { db with emergencies := db.emergencies.map fun e =>
        if e.id == emergencyId then
          { e with status := "risolta", deactivated_at := some now,
                   deactivated_by := some deactivatedBy, updated_at := now }
        else e }
  let db2 : EmDb :=
    { db1 with emergency_teams := db1.emergency_teams.map fun et =>
        if et.emergency_id == emergencyId && et.status != "smobilitata" then
          { et with status := "smobilitata", demobilized_at := some now }
        else et }
  (db2, Except.error JsError.typeError)

/-- A store with emergency 1 active, two mobilized `emergency_teams` rows
for it, and the two mobilized teams (10 and 11) with status `in_viaggio`. -/
def mobilizedDb : EmDb :=
  ⟨[⟨1, "attiva", none, none, 0⟩],
   [⟨1, 10, "allertata", some 10, none⟩, ⟨1, 11, "sul_posto", some 10, none⟩],
   [⟨10, "in_viaggio", 10⟩, ⟨11, "in_viaggio", 10⟩],
   []⟩

/-- A store for the mobilization witness: team 4 has a `MEDIA` order in
status `assegnato` and an `ALTA` order in status `in_viaggio`. -/
def ordersDb : EmDb :=
  ⟨[], [],
   [⟨4, "disponibile", 0⟩],
   [⟨21, some 4, "assegnato", "MEDIA", none⟩,
    ⟨22, some 4, "in_viaggio", "ALTA", some "urgente"⟩]⟩

end Gisa.Emergency

namespace Gisa

/-- C3: the claim states that deactivating an emergency with mobilized
teams marks every non-`smobilitata` `EmergencyTeam` row `smobilitata` with
`demobilized_at` set, AND restores every mobilized team's status to
`disponibile`.  The code performs only the first half: on `mobilizedDb`
(emergency 1 with teams 10 and 11 mobilized and `in_viaggio`) both
`emergency_teams` rows do become `smobilitata` with `demobilized_at = 500`,
but the restore loop iterates the destructured first row of the team-id
query (`const [teams] = ...; for (const team of teams)`), throws a
`TypeError` that the method re-throws, and both teams are left
`in_viaggio`, never `disponibile`. -/
theorem C3_deactivate_never_restores_teams :
    ((Emergency.deactivateEmergency Emergency.mobilizedDb 500 1 9).1.emergency_teams.all
        fun et => et.status == "smobilitata" && et.demobilized_at == some 500) = true ∧
    ((Emergency.deactivateEmergency Emergency.mobilizedDb 500 1 9).1.teams.all
        fun t => t.status == "in_viaggio") = true ∧
    (Emergency.deactivateEmergency Emergency.mobilizedDb 500 1 9).2 =
      Except.error JsError.typeError := by
  refine ⟨rfl, rfl, rfl⟩

end Gisa

namespace Gisa.WorkOrderSvc

/-! Embedding of `workOrderService.js` (src/unnamed/part_000, first
module): the lifecycle transition `updateStatus` with its team side
effects, and the multi-criteria scoring engine. -/

/-- A row of the `work_orders` table (the columns the service touches).
`location` is the `POINT` geometry as an `(ST_X, ST_Y)` = `(lon, lat)`
pair, `none` when the column is SQL `NULL`. -/
structure WoRow where
  id : Nat
  type : String
  status : String
  assigned_team_id : Option Nat
  location : Option (ℚ × ℚ)
  assigned_at : Option Int
  taken_in_charge_at : Option Int
  departure_at : Option Int
  arrival_at : Option Int
  work_started_at : Option Int
  work_completed_at : Option Int
  validated_at : Option Int
  updated_at : Int
deriving DecidableEq, Repr

/-- A row of the `teams` table. -/
structure TeamRow where
  id : Nat
  code : String
  name : String
  status : String
  is_active : Bool
  current_location : Option (ℚ × ℚ)
  updated_at : Int
deriving DecidableEq, Repr

/-- A row of the `vehicles` table (the columns the candidate query reads). -/
structure VehicleRow where
  id : Nat
  assigned_team_id : Option Nat
deriving DecidableEq, Repr

/-- A row of the `team_competences` table; `expiry_date` is a day number,
`none` for no expiry. -/
structure TeamCompetenceRow where
  team_id : Nat
  competence_type : String
  expiry_date : Option Int
deriving DecidableEq, Repr

/-- A row of the `work_order_status_history` table. -/
structure HistoryRow where
  work_order_id : Nat
  old_status : String
  new_status : String
  changed_by : Option Nat
  notes : Option String
deriving DecidableEq, Repr

/-- The four scoring weights, as read from `system_config`.  Each field is
the result of `parseFloat` on the stored JSON value: `none` stands for a
missing key or a value that parses to `NaN`. -/
structure WeightsConfig where
  distance : Option ℚ
  competence : Option ℚ
  materials : Option ℚ
  workload : Option ℚ
deriving DecidableEq, Repr

/-- The slice of the store visible to the work-order service. -/
structure SysDb where
  work_orders : List WoRow
  teams : List TeamRow
  vehicles : List VehicleRow
  team_competences : List TeamCompetenceRow
  history : List HistoryRow
  weightsConfig : WeightsConfig
deriving DecidableEq, Repr

/-- The timestamp columns of `work_orders` that `getTimestampField` can
name. -/
inductive TsField where
  | assigned_at | taken_in_charge_at | departure_at | arrival_at
  | work_started_at | work_completed_at | validated_at
deriving DecidableEq, Repr

/-- `getTimestampField(status)`: the status → timestamp-column lookup map;
unmapped statuses give `null`. -/
def getTimestampField (status : String) : Option TsField :=
  if status == "assegnato" then some TsField.assigned_at
  else if status == "preso_in_carico" then some TsField.taken_in_charge_at
  else if status == "in_viaggio" then some TsField.departure_at
  else if status == "arrivato_sul_posto" then some TsField.arrival_at
  else if status == "in_lavorazione" then some TsField.work_started_at
  else if status == "completato" then some TsField.work_completed_at
  else if status == "validato" then some TsField.validated_at
  else none

/-- Write `now` into the timestamp column named by `f`. -/
def setTs (f : TsField) (now : Int) (w : WoRow) : WoRow :=
  match f with
  | TsField.assigned_at => { w with assigned_at := some now }
  | TsField.taken_in_charge_at => { w with taken_in_charge_at := some now }
  | TsField.departure_at => { w with departure_at := some now }
  | TsField.arrival_at => { w with arrival_at := some now }
  | TsField.work_started_at => { w with work_started_at := some now }
  | TsField.work_completed_at => { w with work_completed_at := some now }
  | TsField.validated_at => { w with validated_at := some now }

/-- `updateTeamStatus(workOrderId, status)`: `UPDATE teams SET status ...
WHERE id = (SELECT assigned_team_id FROM work_orders WHERE id = :workOrderId)`.
When the order is absent or its `assigned_team_id` is `NULL` the scalar
subquery is `NULL` and no team row matches. -/
def updateTeamStatus (db : SysDb) (now : Int) (workOrderId : Nat)
    (status : String) : SysDb :=
  let tid := (db.work_orders.find? fun w => w.id == workOrderId).bind
    (fun w => w.assigned_team_id)
  { db with teams := db.teams.map fun t =>
      if some t.id == tid then { t with status := status, updated_at := now }
      else t }

/-- The row update of `updateStatus`: new status, the mapped timestamp
column (when any), and `updated_at`. -/
def applyStatusUpdate (now : Int) (newStatus : String) (w : WoRow) : WoRow :=
  let w1 : WoRow := { w with status := newStatus, updated_at := now }
  match getTimestampField newStatus with
  | none => w1
  | some f => setTs f now w1

/-- `updateStatus(workOrderId, newStatus, userId, notes)`: reads the current
status (error `ODL non trovato` when the order is absent), updates the
order row with the new status and the mapped timestamp, appends a
`work_order_status_history` row, and mirrors `in_viaggio` /
`in_lavorazione` / `completato` (→ `disponibile`) onto the assigned team's
status.  Any status string is accepted. -/
def updateStatus (db : SysDb) (now : Int) (workOrderId : Nat)
    (newStatus : String) (userId : Option Nat) (notes : Option String) :
    SysDb × Except JsError Bool :=
  match db.work_orders.find? fun w => w.id == workOrderId with
  | none => (db, Except.error (JsError.message ("ODL non trovato")))
  | some current =>
      let db1 : SysDb :=
        { db with work_orders := db.work_orders.map fun w =>
            if w.id == workOrderId then applyStatusUpdate now newStatus w else w }
      let db2 : SysDb :=
        { db1 with history := db1.history ++
            [⟨workOrderId, current.status, newStatus, userId, notes⟩] }
      let db3 : SysDb :=
        if newStatus == "in_viaggio" then updateTeamStatus db2 now workOrderId ("in_viaggio")
        else if newStatus == "in_lavorazione" then
          updateTeamStatus db2 now workOrderId ("in_lavorazione")
        else if newStatus == "completato" then
          updateTeamStatus db2 now workOrderId ("disponibile")
        else db2
      (db3, Except.ok true)

end Gisa.WorkOrderSvc

namespace Gisa.WorkOrderSvc

/-- A `find?` over a mapped list where the map preserves the predicate. -/
theorem find?_map_of_pres (f : α → α) (p : α → Bool)
    (h : ∀ x, p (f x) = p x) (l : List α) :
    (l.map f).find? p = (l.find? p).map f := by
  induction l with
  | nil => rfl
  | cons a l ih =>
      by_cases hp : p a
      · simp [List.find?_cons, h, hp]
      · simp only [Bool.not_eq_true] at hp
        simp [List.find?_cons, h, hp, ih]

/-- `applyStatusUpdate` never changes the row id. -/
theorem applyStatusUpdate_id (now : Int) (s : String) (w : WoRow) :
    (applyStatusUpdate now s w).id = w.id := by
  unfold applyStatusUpdate
  cases getTimestampField s with
  | none => rfl
  | some f => cases f <;> rfl

/-- `applyStatusUpdate` never changes the assigned team. -/
theorem applyStatusUpdate_team (now : Int) (s : String) (w : WoRow) :
    (applyStatusUpdate now s w).assigned_team_id = w.assigned_team_id := by
  unfold applyStatusUpdate
  cases getTimestampField s with
  | none => rfl
  | some f => cases f <;> rfl

/-- `applyStatusUpdate` with status `completato` stamps `work_completed_at`
and writes the status. -/
theorem applyStatusUpdate_completato (now : Int) (w : WoRow) :
    (applyStatusUpdate now "completato" w).status = "completato" ∧
    (applyStatusUpdate now "completato" w).work_completed_at = some now := by
  constructor <;> rfl

end Gisa.WorkOrderSvc

namespace Gisa.WorkOrderSvc

/-- When the scalar subquery of `updateTeamStatus` yields team id `tid`,
every team row with that id ends with the written status. -/
theorem updateTeamStatus_sets (db : SysDb) (now : Int) (woId tid : Nat)
    (st : String)
    (h : ((db.work_orders.find? fun w => w.id == woId).bind fun w => w.assigned_team_id)
        = some tid) :
    ∀ t ∈ (updateTeamStatus db now woId st).teams, t.id = tid → t.status = st := by
  intro t htm hid
  simp only [updateTeamStatus, h] at htm
  rcases List.mem_map.1 htm with ⟨t0, ht0, rfl⟩
  by_cases hb : t0.id = tid
  · simp [hb]
  · have hc : (some t0.id == some tid) = false := by simp [hb]
    simp only [hc, Bool.false_eq_true, if_false] at hid ⊢
    exact absurd hid hb

/-- `updateTeamStatus` leaves `work_orders` untouched. -/
theorem updateTeamStatus_work_orders (db : SysDb) (now : Int) (woId : Nat)
    (st : String) : (updateTeamStatus db now woId st).work_orders = db.work_orders := by
  rfl

end Gisa.WorkOrderSvc

namespace Gisa

/-- C4: for every store, every existing work order (whatever its current
status) with an assigned team, `updateStatus(_, 'completato', _, _)` stamps
the order's `work_completed_at` with the current time and sets the assigned
team's status to `disponibile`. -/
theorem C4_completato_stamps_and_frees_team (db : WorkOrderSvc.SysDb)
    (now : Int) (workOrderId tid : Nat) (w : WorkOrderSvc.WoRow)
    (userId : Option Nat) (notes : Option String)
    (hw : db.work_orders.find? (fun x => x.id == workOrderId) = some w)
    (ht : w.assigned_team_id = some tid) :
    (∀ x ∈ (WorkOrderSvc.updateStatus db now workOrderId "completato" userId notes).1.work_orders,
        x.id = workOrderId →
        x.status = "completato" ∧ x.work_completed_at = some now) ∧
    (∀ t ∈ (WorkOrderSvc.updateStatus db now workOrderId "completato" userId notes).1.teams,
        t.id = tid → t.status = "disponibile") := by
  have hw' : (w.id == workOrderId) = true := by
    have := List.find?_some hw
    simpa using this
  have e1 : (("completato" : String) == "in_viaggio") = false := by decide
  have e2 : (("completato" : String) == "in_lavorazione") = false := by decide
  have e3 : (("completato" : String) == "completato") = true := by decide
  unfold WorkOrderSvc.updateStatus
  rw [hw]
  simp only [e1, e2, e3, Bool.false_eq_true, if_false, if_true]
  constructor
  · intro x hx hid
    rw [WorkOrderSvc.updateTeamStatus_work_orders] at hx
    rcases List.mem_map.1 hx with ⟨x0, hx0, rfl⟩
    by_cases hb : x0.id = workOrderId
    · have hc : (x0.id == workOrderId) = true := by simp [hb]
      simp only [hc, if_true]
      exact WorkOrderSvc.applyStatusUpdate_completato now x0
    · have hc : (x0.id == workOrderId) = false := by simp [hb]
      simp only [hc, Bool.false_eq_true, if_false] at hid ⊢
      exact absurd hid hb
  · have hpres : ∀ x : WorkOrderSvc.WoRow,
        (((fun y : WorkOrderSvc.WoRow =>
            if y.id == workOrderId then WorkOrderSvc.applyStatusUpdate now "completato" y else y) x).id
          == workOrderId) = (x.id == workOrderId) := by
      intro x
      by_cases hb : x.id = workOrderId
      · simp [hb, WorkOrderSvc.applyStatusUpdate_id]
      · simp [hb]
    apply WorkOrderSvc.updateTeamStatus_sets
    rw [WorkOrderSvc.find?_map_of_pres _ _ hpres, hw]
    simp only [Option.map_some', hw', if_true, Option.some_bind']
    rw [WorkOrderSvc.applyStatusUpdate_team, ht]

end Gisa

namespace Gisa.WorkOrderSvc

/-- A concrete work order in `in_lavorazione`, assigned to team 5. -/
def c4Order : WoRow :=
  ⟨1, "riparazione_perdita", "in_lavorazione", some 5, none,
   none, none, none, none, none, none, none, 0⟩

/-- A concrete store for the `updateStatus` witness. -/
def c4Db : SysDb :=
  ⟨[c4Order], [⟨5, "SQ1", "Alpha", "in_lavorazione", true, none, 0⟩],
   [], [], [], ⟨none, none, none, none⟩⟩

end Gisa.WorkOrderSvc

namespace Gisa

/-- Witness for C4 at a concrete store: completing order 1 (assigned to
team 5) stamps `work_completed_at = 50` and frees team 5. -/
theorem C4_completato_witness :
    (WorkOrderSvc.c4Db.work_orders.find? (fun x => x.id == 1) = some WorkOrderSvc.c4Order ∧
      WorkOrderSvc.c4Order.assigned_team_id = some 5) ∧
    ((∀ x ∈ (WorkOrderSvc.updateStatus WorkOrderSvc.c4Db 50 1 "completato" (some 2) none).1.work_orders,
        x.id = 1 → x.status = "completato" ∧ x.work_completed_at = some 50) ∧
     (∀ t ∈ (WorkOrderSvc.updateStatus WorkOrderSvc.c4Db 50 1 "completato" (some 2) none).1.teams,
        t.id = 5 → t.status = "disponibile")) :=
  ⟨⟨rfl, rfl⟩,
   C4_completato_stamps_and_frees_team WorkOrderSvc.c4Db 50 1 5 WorkOrderSvc.c4Order
     (some 2) none rfl rfl⟩

end Gisa

namespace Gisa.WorkOrderSvc

/-! The scoring engine of `calculateOptimalAssignment`. -/

/-- A row of the candidate-team query (teams joined to their vehicles and
annotated with the active-order count): `longitude`/`latitude` are
`ST_X`/`ST_Y` of `current_location` (`none` when the location is `NULL`). -/
structure CandRow where
  id : Nat
  code : String
  name : String
  status : String
  longitude : Option ℚ
  latitude : Option ℚ
  vehicle_id : Option Nat
  active_work_orders : Nat
deriving DecidableEq, Repr

/-- The per-candidate score record built by the scoring loop. -/
structure Scores where
  distance : ℚ
  competence : ℚ
  materials : ℚ
  workload : ℚ
deriving DecidableEq, Repr

/-- The per-candidate result entry of `calculateOptimalAssignment`. -/
structure ScoredTeam where
  team_id : Nat
  team_code : String
  team_name : String
  scores : Scores
  total_score : ℚ
  estimated_arrival_time : Option ℚ
deriving DecidableEq, Repr

/-- `getRequiredCompetences(workOrderType)`: the intervention-type →
competences map; unmapped types give `[]`. -/
def getRequiredCompetences (workOrderType : String) : List String :=
  if workOrderType == "riparazione_perdita" then
    ["saldatura_polietilene", "lavori_scavo"]
  else if workOrderType == "spurgo_fogna" then
    ["autospurgo", "ambienti_confinati"]
  else if workOrderType == "sostituzione_pozzetto" then
    ["muratura", "lavori_scavo"]
  else if workOrderType == "videoispezione" then
    ["videocamera_fognature", "interpretazione_immagini"]
  else []

/-- `getRequiredMaterials(workOrderType)`: the intervention-type →
materials map; unmapped types give `[]`. -/
def getRequiredMaterials (workOrderType : String) : List String :=
  if workOrderType == "riparazione_perdita" then
    ["tubo_pe_100mm", "raccordi", "nastro_segnalatore"]
  else if workOrderType == "spurgo_fogna" then []
  else if workOrderType == "sostituzione_pozzetto" then
    ["pozzetto_prefabbricato", "malta", "chiusino"]
  else if workOrderType == "videoispezione" then []
  else []

/-- The coordinate row re-queried by `calculateDistanceScore`
(`SELECT ST_X(location) as lon, ST_Y(location) as lat FROM work_orders
WHERE id = :id`), destructured to its first row. -/
def odlCoordsRow (db : SysDb) (woId : Nat) : Option (Option ℚ × Option ℚ) :=
  (db.work_orders.find? fun w => w.id == woId).map
    fun w => (w.location.map Prod.fst, w.location.map Prod.snd)

/-- `calculateDistanceScore(workOrder, team)`.  `getDistance` abstracts
`geolib.getDistance` (metres between two lat/lon pairs, team first);
the score is `max(0, 100 - distanceKm)`.  The guards are the source's JS
truthiness tests, under which a coordinate equal to `0` counts as missing
(`!team.latitude || !team.longitude || !workOrder.location`, then
`!odlCoords || !odlCoords.lon || !odlCoords.lat`). -/
def calculateDistanceScore (getDistance : ℚ → ℚ → ℚ → ℚ → ℚ) (db : SysDb)
    (workOrder : WoRow) (team : CandRow) : ℚ :=
  if numFalsy team.latitude || numFalsy team.longitude || workOrder.location == none then 0
  else
    match odlCoordsRow db workOrder.id with
    | none => 0
    | some (lon, lat) =>
        if numFalsy lon || numFalsy lat then 0
        else
          let distanceMeters :=
            getDistance (team.latitude.getD 0) (team.longitude.getD 0)
              (lat.getD 0) (lon.getD 0)
          let distanceKm := distanceMeters / 1000
          max 0 (100 - distanceKm)

/-- `calculateCompetenceScore(workOrder, team)`: `100` when the type
requires no competences, otherwise `100 *` the fraction of required
competences the team holds unexpired (`expiry_date IS NULL OR expiry_date >
CURDATE()`, with `today` the server-local date). -/
def calculateCompetenceScore (db : SysDb) (today : Int) (workOrder : WoRow)
    (team : CandRow) : ℚ :=
  let required := getRequiredCompetences workOrder.type
  if required.length == 0 then 100
  else
    let cnt := (db.team_competences.filter fun c =>
      c.team_id == team.id && required.contains c.competence_type &&
      (match c.expiry_date with
       | none => true
       | some d => decide (d > today))).length
    ((cnt : ℚ) / (required.length : ℚ)) * 100

/-- `calculateMaterialsScore(workOrder, team)`: `100` when the type
requires no materials, otherwise the fixed placeholder `70`. -/
def calculateMaterialsScore (workOrder : WoRow) : ℚ :=
  if (getRequiredMaterials workOrder.type).length == 0 then 100 else 70

/-- `calculateWorkloadScore(team)`: `max(0, 100 - 20 * activeOrders)`. -/
def calculateWorkloadScore (team : CandRow) : ℚ :=
  max 0 (100 - 20 * (team.active_work_orders : ℚ))

/-- `calculateETA(workOrder, team)`: `null` under the JS-truthiness guard
`!team.latitude || !team.longitude`; otherwise the ceiling of a fixed
placeholder trip (10 km at 40 km/h) in minutes, independent of the real
distance. -/
def calculateETA (team : CandRow) : Option ℚ :=
  if numFalsy team.latitude || numFalsy team.longitude then none
  else
    let distanceKm : ℚ := 10
    let avgSpeedKmh : ℚ := 40
    some ((⌈distanceKm / avgSpeedKmh * 60⌉ : ℤ) : ℚ)

/-- The four weights used for aggregation. -/
structure Weights where
  distance : ℚ
  competence : ℚ
  materials : ℚ
  workload : ℚ
deriving DecidableEq, Repr

/-- The JS idiom `parseFloat(stored) || default`: a missing value or one
parsing to `NaN` (`none`) and a value parsing to `0` all yield the
default. -/
def numOrDefault (v : Option ℚ) (d : ℚ) : ℚ :=
  match v with
  | none => d
  | some q => if q = 0 then d else q

/-- `getScoringWeights()`: each configured weight through
`parseFloat(...) || default`, with defaults 0.40 / 0.25 / 0.20 / 0.15. -/
def getScoringWeights (cfg : WeightsConfig) : Weights :=
  ⟨numOrDefault cfg.distance (40 / 100), numOrDefault cfg.competence (25 / 100),
   numOrDefault cfg.materials (20 / 100), numOrDefault cfg.workload (15 / 100)⟩

/-- The body of the scoring loop of `calculateOptimalAssignment`: the four
sub-scores, the weighted total (no clamping), and the placeholder ETA. -/
def scoreTeam (getDistance : ℚ → ℚ → ℚ → ℚ → ℚ) (db : SysDb) (today : Int)
    (weights : Weights) (workOrder : WoRow) (team : CandRow) : ScoredTeam :=
  let s : Scores :=
    ⟨calculateDistanceScore getDistance db workOrder team,
     calculateCompetenceScore db today workOrder team,
     calculateMaterialsScore workOrder,
     calculateWorkloadScore team⟩
  ⟨team.id, team.code, team.name, s,
   s.distance * weights.distance + s.competence * weights.competence +
     s.materials * weights.materials + s.workload * weights.workload,
   calculateETA team⟩

end Gisa.WorkOrderSvc

namespace Gisa.WorkOrderSvc

/-- A distance function that returns 0 metres (as the great-circle
distance does on coincident points). -/
def zeroDistance : ℚ → ℚ → ℚ → ℚ → ℚ := fun _ _ _ _ => 0

/-- A distance function that returns a constant 30 km. -/
def constDistance : ℚ → ℚ → ℚ → ℚ → ℚ := fun _ _ _ _ => 30000

/-- A distance function that returns a constant 10 km. -/
def tenKmDistance : ℚ → ℚ → ℚ → ℚ → ℚ := fun _ _ _ _ => 10000

/-- A work order located at longitude 10, latitude 0 (on the equator). -/
def c6Order : WoRow :=
  ⟨1, "altro", "ricevuto", none, some (10, 0),
   none, none, none, none, none, none, none, 0⟩

/-- The store holding `c6Order`. -/
def c6Db : SysDb := ⟨[c6Order], [], [], [], [], ⟨none, none, none, none⟩⟩

/-- A candidate team standing exactly at `c6Order`'s location
(latitude 0, longitude 10): both coordinate pairs are present. -/
def c6Team : CandRow := ⟨5, "SQ1", "Alpha", "disponibile", some 10, some 0, none, 0⟩

/-- A work order at longitude 11, latitude 44, for the witness. -/
def c6wOrder : WoRow :=
  ⟨2, "altro", "ricevuto", none, some (11, 44),
   none, none, none, none, none, none, none, 0⟩

/-- The store holding `c6wOrder`. -/
def c6wDb : SysDb := ⟨[c6wOrder], [], [], [], [], ⟨none, none, none, none⟩⟩

/-- A candidate team at latitude 45, longitude 9. -/
def c6wTeam : CandRow := ⟨5, "SQ1", "Alpha", "disponibile", some 9, some 45, none, 0⟩

/-- A candidate team whose latitude is `NULL`. -/
def c6wTeamNoLat : CandRow := ⟨6, "SQ2", "Bravo", "disponibile", some 9, none, none, 0⟩

/-- A candidate team whose latitude is the present value 0. -/
def c6wTeamZeroLat : CandRow := ⟨9, "SQ6", "Foxtrot", "disponibile", some 9, some 0, none, 0⟩

/-- A work order whose longitude is the present value 0 (latitude 44). -/
def c6wOrderZeroLon : WoRow :=
  ⟨3, "altro", "ricevuto", none, some (0, 44),
   none, none, none, none, none, none, none, 0⟩

/-- The store holding `c6wOrderZeroLon`. -/
def c6wDbZ : SysDb := ⟨[c6wOrderZeroLon], [], [], [], [], ⟨none, none, none, none⟩⟩

end Gisa.WorkOrderSvc

namespace Gisa

/-- C6 counterexample: the claim states that whenever both coordinate
pairs are present the score is `max(0, 100 - d)`.  For a team standing at
the order's own location `(lat 0, lon 10)` — both pairs present, d = 0 —
the claim demands a score of `max(0, 100 - 0) = 100`, but the JS guard
`!team.latitude` treats the present latitude `0` as missing and the code
returns the fail-closed score 0. -/
theorem C6_distance_zero_coordinate_counterexample :
    WorkOrderSvc.calculateDistanceScore WorkOrderSvc.zeroDistance WorkOrderSvc.c6Db
        WorkOrderSvc.c6Order WorkOrderSvc.c6Team = 0 ∧
    WorkOrderSvc.calculateDistanceScore WorkOrderSvc.zeroDistance WorkOrderSvc.c6Db
        WorkOrderSvc.c6Order WorkOrderSvc.c6Team ≠
      max 0 (100 - WorkOrderSvc.zeroDistance 0 10 0 10 / 1000) := by
  have hL : WorkOrderSvc.calculateDistanceScore WorkOrderSvc.zeroDistance WorkOrderSvc.c6Db
      WorkOrderSvc.c6Order WorkOrderSvc.c6Team = 0 := by
    simp [WorkOrderSvc.calculateDistanceScore, WorkOrderSvc.c6Team, Gisa.numFalsy]
  have hR : max (0 : ℚ) (100 - WorkOrderSvc.zeroDistance 0 10 0 10 / 1000) = 100 := by
    norm_num [WorkOrderSvc.zeroDistance]
  refine ⟨hL, ?_⟩
  rw [hL, hR]
  norm_num

/-- C6 amended: when both coordinate pairs are present AND all four
coordinates are nonzero, the score is `max(0, 100 - distanceKm)` with the
distance taken between the team's and the order's coordinates; and the
score is 0 with no error raised (the function is total) whenever a
coordinate is missing (`NULL`) OR equal to 0, which the JS truthiness
guards treat as missing — on the team side (second conjunct) and, through
the coordinate re-query, on the order side (third conjunct). -/
theorem C6_distance_score_amended (getDistance : ℚ → ℚ → ℚ → ℚ → ℚ)
    (db : WorkOrderSvc.SysDb) (workOrder : WorkOrderSvc.WoRow)
    (team : WorkOrderSvc.CandRow) (tlat tlon lon lat : ℚ) :
    (team.latitude = some tlat → tlat ≠ 0 →
     team.longitude = some tlon → tlon ≠ 0 →
     workOrder.location = some (lon, lat) → lon ≠ 0 → lat ≠ 0 →
     db.work_orders.find? (fun w => w.id == workOrder.id) = some workOrder →
     WorkOrderSvc.calculateDistanceScore getDistance db workOrder team =
       max 0 (100 - getDistance tlat tlon lat lon / 1000)) ∧
    ((team.latitude = none ∨ team.latitude = some 0 ∨
      team.longitude = none ∨ team.longitude = some 0 ∨
      workOrder.location = none) →
     WorkOrderSvc.calculateDistanceScore getDistance db workOrder team = 0) ∧
    (db.work_orders.find? (fun w => w.id == workOrder.id) = some workOrder →
     workOrder.location = some (lon, lat) → (lon = 0 ∨ lat = 0) →
     WorkOrderSvc.calculateDistanceScore getDistance db workOrder team = 0) := by
  refine ⟨?_, ?_, ?_⟩
  · intro h1 h2 h3 h4 h5 h6 h7 h8
    simp [WorkOrderSvc.calculateDistanceScore, WorkOrderSvc.odlCoordsRow,
      Gisa.numFalsy, h1, h2, h3, h4, h5, h6, h7, h8]
  · intro h
    rcases h with h | h | h | h | h <;>
      simp [WorkOrderSvc.calculateDistanceScore, Gisa.numFalsy, h]
  · intro h8 h5 hz
    have hrow : WorkOrderSvc.odlCoordsRow db workOrder.id = some (some lon, some lat) := by
      simp [WorkOrderSvc.odlCoordsRow, h8, h5]
    unfold WorkOrderSvc.calculateDistanceScore
    rw [hrow]
    rcases hz with hz | hz <;> simp [Gisa.numFalsy, hz]

/-- Witness for C6 at concrete inputs: a team at (45, 9) against an order
at (lat 44, lon 11) with a 30 km distance function scores
`max(0, 100 - 30) = 70`; a team with `NULL` latitude scores 0; a team
with present latitude 0 scores 0; and an order whose longitude is 0
scores 0. -/
theorem C6_distance_score_witness :
    (WorkOrderSvc.calculateDistanceScore WorkOrderSvc.constDistance WorkOrderSvc.c6wDb
        WorkOrderSvc.c6wOrder WorkOrderSvc.c6wTeam =
      max 0 (100 - WorkOrderSvc.constDistance 45 9 44 11 / 1000)) ∧
    (WorkOrderSvc.calculateDistanceScore WorkOrderSvc.constDistance WorkOrderSvc.c6wDb
        WorkOrderSvc.c6wOrder WorkOrderSvc.c6wTeamNoLat = 0) ∧
    (WorkOrderSvc.calculateDistanceScore WorkOrderSvc.constDistance WorkOrderSvc.c6wDb
        WorkOrderSvc.c6wOrder WorkOrderSvc.c6wTeamZeroLat = 0) ∧
    (WorkOrderSvc.calculateDistanceScore WorkOrderSvc.constDistance WorkOrderSvc.c6wDbZ
        WorkOrderSvc.c6wOrderZeroLon WorkOrderSvc.c6wTeam = 0) :=
  ⟨(C6_distance_score_amended WorkOrderSvc.constDistance WorkOrderSvc.c6wDb
      WorkOrderSvc.c6wOrder WorkOrderSvc.c6wTeam 45 9 11 44).1 rfl (by norm_num) rfl
      (by norm_num) rfl (by norm_num) (by norm_num) rfl,
   (C6_distance_score_amended WorkOrderSvc.constDistance WorkOrderSvc.c6wDb
      WorkOrderSvc.c6wOrder WorkOrderSvc.c6wTeamNoLat 0 0 0 0).2.1 (Or.inl rfl),
   (C6_distance_score_amended WorkOrderSvc.constDistance WorkOrderSvc.c6wDb
      WorkOrderSvc.c6wOrder WorkOrderSvc.c6wTeamZeroLat 0 0 0 0).2.1
      (Or.inr (Or.inl rfl)),
   (C6_distance_score_amended WorkOrderSvc.constDistance WorkOrderSvc.c6wDbZ
      WorkOrderSvc.c6wOrderZeroLon WorkOrderSvc.c6wTeam 45 9 0 44).2.2 rfl rfl
      (Or.inl rfl)⟩

end Gisa

namespace Gisa.WorkOrderSvc

/-- A work order of a type mapped to neither competences nor materials. -/
def c7Order : WoRow :=
  ⟨2, "allaccio_nuovo", "ricevuto", none, some (9, 45),
   none, none, none, none, none, none, none, 0⟩

/-- The store holding `c7Order`, with no configured weights. -/
def c7Db : SysDb := ⟨[c7Order], [], [], [], [], ⟨none, none, none, none⟩⟩

/-- A candidate team with present nonzero coordinates and 0 active orders. -/
def c7Team : CandRow := ⟨3, "SQ2", "Bravo", "disponibile", some 9, some 45, none, 0⟩

end Gisa.WorkOrderSvc

namespace Gisa

/-- C7: for an order requiring no competences and no materials and a team
10 km away with 0 active orders, under the default weights the sub-scores
are distance 90, competence 100, materials 100, workload 100 and the
weighted aggregate is exactly 96; and the aggregate is the plain weighted
sum with no clamping — with unnormalized weights (1,1,1,1) the same
sub-scores aggregate to 390, far above 100. -/
theorem C7_default_weights_example :
    (WorkOrderSvc.scoreTeam WorkOrderSvc.tenKmDistance WorkOrderSvc.c7Db 0
        (WorkOrderSvc.getScoringWeights ⟨none, none, none, none⟩)
        WorkOrderSvc.c7Order WorkOrderSvc.c7Team).scores = ⟨90, 100, 100, 100⟩ ∧
    (WorkOrderSvc.scoreTeam WorkOrderSvc.tenKmDistance WorkOrderSvc.c7Db 0
        (WorkOrderSvc.getScoringWeights ⟨none, none, none, none⟩)
        WorkOrderSvc.c7Order WorkOrderSvc.c7Team).total_score = 96 ∧
    (WorkOrderSvc.scoreTeam WorkOrderSvc.tenKmDistance WorkOrderSvc.c7Db 0
        ⟨1, 1, 1, 1⟩ WorkOrderSvc.c7Order WorkOrderSvc.c7Team).total_score = 390 := by
  have hrc : WorkOrderSvc.getRequiredCompetences ("allaccio_nuovo") = [] := rfl
  have hrm : WorkOrderSvc.getRequiredMaterials ("allaccio_nuovo") = [] := rfl
  refine ⟨?_, ?_, ?_⟩ <;>
    norm_num [WorkOrderSvc.scoreTeam, WorkOrderSvc.calculateDistanceScore,
      WorkOrderSvc.calculateCompetenceScore, WorkOrderSvc.calculateMaterialsScore,
      WorkOrderSvc.calculateWorkloadScore, WorkOrderSvc.getScoringWeights,
      WorkOrderSvc.numOrDefault, WorkOrderSvc.odlCoordsRow, hrc, hrm,
      WorkOrderSvc.c7Order, WorkOrderSvc.c7Db, WorkOrderSvc.c7Team,
      WorkOrderSvc.tenKmDistance, Gisa.numFalsy]

end Gisa

namespace Gisa.WorkOrderSvc

/-- A candidate team whose latitude is the present value 0. -/
def c9TeamZeroLat : CandRow := ⟨6, "SQ3", "Charlie", "disponibile", some 3, some 0, none, 0⟩

/-- A candidate team at latitude 45, longitude 9, for the ETA witness. -/
def c9Team : CandRow := ⟨7, "SQ4", "Delta", "disponibile", some 9, some 45, none, 2⟩

/-- A candidate team with `NULL` longitude, for the ETA witness. -/
def c9TeamNoLon : CandRow := ⟨8, "SQ5", "Echo", "disponibile", none, some 45, none, 0⟩

end Gisa.WorkOrderSvc

namespace Gisa

/-- C9 counterexample: the claim states that every candidate team with
known coordinates gets the constant ETA of 15 minutes.  A team whose known
latitude is 0 fails the JS truthiness guard `!team.latitude` and gets
`null` instead of 15. -/
theorem C9_eta_zero_coordinate_counterexample :
    WorkOrderSvc.calculateETA WorkOrderSvc.c9TeamZeroLat = none ∧
    WorkOrderSvc.calculateETA WorkOrderSvc.c9TeamZeroLat ≠ some 15 := by
  constructor <;>
    simp [WorkOrderSvc.calculateETA, WorkOrderSvc.c9TeamZeroLat, Gisa.numFalsy]

/-- C9 amended: for every candidate team with present NONZERO coordinates
the ETA is the constant 15 minutes — the ceiling of a fixed 10 km at
40 km/h, independent of the team-to-order distance — and for a team with a
coordinate that is missing OR equal to 0 (which the truthiness guard
`!team.latitude || !team.longitude` treats as missing) it is `null`. -/
theorem C9_eta_amended (team : WorkOrderSvc.CandRow) :
    (∀ tlat tlon : ℚ, team.latitude = some tlat → tlat ≠ 0 →
      team.longitude = some tlon → tlon ≠ 0 →
      WorkOrderSvc.calculateETA team = some 15) ∧
    ((team.latitude = none ∨ team.latitude = some 0 ∨
      team.longitude = none ∨ team.longitude = some 0) →
      WorkOrderSvc.calculateETA team = none) := by
  constructor
  · intro tlat tlon h1 h2 h3 h4
    have hceil : ((⌈(10 : ℚ) / 40 * 60⌉ : ℤ) : ℚ) = 15 := by norm_num
    simp [WorkOrderSvc.calculateETA, Gisa.numFalsy, h1, h2, h3, h4, hceil]
  · intro h
    rcases h with h | h | h | h <;>
      simp [WorkOrderSvc.calculateETA, Gisa.numFalsy, h]

/-- Witness for C9 at concrete teams: ETA 15 for a team at (45, 9) even
with 2 active orders, `null` for a team with `NULL` longitude, and `null`
for a team with present latitude 0. -/
theorem C9_eta_witness :
    WorkOrderSvc.calculateETA WorkOrderSvc.c9Team = some 15 ∧
    WorkOrderSvc.calculateETA WorkOrderSvc.c9TeamNoLon = none ∧
    WorkOrderSvc.calculateETA WorkOrderSvc.c9TeamZeroLat = none :=
  ⟨(C9_eta_amended WorkOrderSvc.c9Team).1 45 9 rfl (by norm_num) rfl (by norm_num),
   (C9_eta_amended WorkOrderSvc.c9TeamNoLon).2 (Or.inr (Or.inr (Or.inl rfl))),
   (C9_eta_amended WorkOrderSvc.c9TeamZeroLat).2 (Or.inr (Or.inl rfl))⟩

/-- C10 counterexample: the claim states the aggregate is always computed
with strictly positive weights.  A distance weight stored as `-1` parses
truthy and is used as is: the resulting weight is negative. -/
theorem C10_negative_weight_counterexample :
    (WorkOrderSvc.getScoringWeights ⟨some (-1), none, none, none⟩).distance = -1 ∧
    ¬ (0 < (WorkOrderSvc.getScoringWeights ⟨some (-1), none, none, none⟩).distance) := by
  constructor
  · norm_num [WorkOrderSvc.getScoringWeights, WorkOrderSvc.numOrDefault]
  · norm_num [WorkOrderSvc.getScoringWeights, WorkOrderSvc.numOrDefault]

end Gisa

namespace Gisa.WorkOrderSvc

/-- `numOrDefault` yields the default exactly on a missing/`NaN` value or
a value parsing to 0. -/
theorem numOrDefault_default (v : Option ℚ) (d : ℚ)
    (h : v = none ∨ v = some 0) : numOrDefault v d = d := by
  rcases h with h | h <;> simp [numOrDefault, h]

/-- `numOrDefault` never yields 0 when the default is nonzero. -/
theorem numOrDefault_ne_zero (v : Option ℚ) (d : ℚ) (hd : d ≠ 0) :
    numOrDefault v d ≠ 0 := by
  match v with
  | none => simpa [numOrDefault] using hd
  | some q =>
      by_cases hq : q = 0
      · simpa [numOrDefault, hq] using hd
      · simp [numOrDefault, hq]

end Gisa.WorkOrderSvc

namespace Gisa

/-- C10 amended: each stored weight that is absent or parses to `NaN`
(`none`) or to exactly 0 is silently replaced by its default (0.40 / 0.25 /
0.20 / 0.15), so a weight configured as exactly 0 can never take effect and
the aggregate is always computed with NONZERO weights (not necessarily
positive: a negatively configured weight is used as is). -/
theorem C10_weights_amended (cfg : WorkOrderSvc.WeightsConfig) :
    ((cfg.distance = none ∨ cfg.distance = some 0) →
      (WorkOrderSvc.getScoringWeights cfg).distance = 40 / 100) ∧
    ((cfg.competence = none ∨ cfg.competence = some 0) →
      (WorkOrderSvc.getScoringWeights cfg).competence = 25 / 100) ∧
    ((cfg.materials = none ∨ cfg.materials = some 0) →
      (WorkOrderSvc.getScoringWeights cfg).materials = 20 / 100) ∧
    ((cfg.workload = none ∨ cfg.workload = some 0) →
      (WorkOrderSvc.getScoringWeights cfg).workload = 15 / 100) ∧
    ((WorkOrderSvc.getScoringWeights cfg).distance ≠ 0 ∧
     (WorkOrderSvc.getScoringWeights cfg).competence ≠ 0 ∧
     (WorkOrderSvc.getScoringWeights cfg).materials ≠ 0 ∧
     (WorkOrderSvc.getScoringWeights cfg).workload ≠ 0) := by
  refine ⟨fun h => ?_, fun h => ?_, fun h => ?_, fun h => ?_, ?_, ?_, ?_, ?_⟩
  · exact WorkOrderSvc.numOrDefault_default _ _ h
  · exact WorkOrderSvc.numOrDefault_default _ _ h
  · exact WorkOrderSvc.numOrDefault_default _ _ h
  · exact WorkOrderSvc.numOrDefault_default _ _ h
  · exact WorkOrderSvc.numOrDefault_ne_zero _ _ (by norm_num)
  · exact WorkOrderSvc.numOrDefault_ne_zero _ _ (by norm_num)
  · exact WorkOrderSvc.numOrDefault_ne_zero _ _ (by norm_num)
  · exact WorkOrderSvc.numOrDefault_ne_zero _ _ (by norm_num)

/-- Witness for C10 at a concrete configuration: distance stored as 0 and
competence missing both fall back to their defaults, and the workload
weight is nonzero. -/
theorem C10_weights_witness :
    (WorkOrderSvc.getScoringWeights ⟨some 0, none, some (1 / 2), none⟩).distance = 40 / 100 ∧
    (WorkOrderSvc.getScoringWeights ⟨some 0, none, some (1 / 2), none⟩).competence = 25 / 100 ∧
    (WorkOrderSvc.getScoringWeights ⟨some 0, none, some (1 / 2), none⟩).workload ≠ 0 :=
  ⟨(C10_weights_amended ⟨some 0, none, some (1 / 2), none⟩).1 (Or.inr rfl),
   (C10_weights_amended ⟨some 0, none, some (1 / 2), none⟩).2.1 (Or.inl rfl),
   (C10_weights_amended ⟨some 0, none, some (1 / 2), none⟩).2.2.2.2.2.2.2⟩

end Gisa

namespace Gisa.Emergency

/-- `mobilizeTeam` keeps the work-order list's length. -/
theorem mobilizeTeam_length (db : EmDb) (now : Int) (eid tid : Nat) :
    (mobilizeTeam db now eid tid).work_orders.length = db.work_orders.length := by
  simp [mobilizeTeam]

/-- `ordersDb` has a first work order. -/
theorem ordersDb_first_lt : 0 < ordersDb.work_orders.length := by decide

end Gisa.Emergency

namespace Gisa

/-- C5: for every store, after `mobilizeTeam(eid, tid)` every work order
assigned to team `tid` with status in `{assegnato, in_viaggio}` and
priority different from `ALTA` has become `sospeso` with the emergency
note appended to its notes, while every `ALTA`-priority order (of that
team or any other) is completely unchanged. -/
theorem C5_mobilize_suspends_non_alta (db : Emergency.EmDb) (now : Int)
    (eid tid : Nat) (i : Nat) (h : i < db.work_orders.length) :
    ((db.work_orders.get ⟨i, h⟩).assigned_team_id = some tid →
     ((db.work_orders.get ⟨i, h⟩).status = "assegnato" ∨
       (db.work_orders.get ⟨i, h⟩).status = "in_viaggio") →
     (db.work_orders.get ⟨i, h⟩).priority ≠ "ALTA" →
     ∃ h2 : i < (Emergency.mobilizeTeam db now eid tid).work_orders.length,
       ((Emergency.mobilizeTeam db now eid tid).work_orders.get ⟨i, h2⟩).status = "sospeso" ∧
       ((Emergency.mobilizeTeam db now eid tid).work_orders.get ⟨i, h2⟩).notes =
         some (((db.work_orders.get ⟨i, h⟩).notes.getD "") ++ Emergency.suspendNote eid)) ∧
    ((db.work_orders.get ⟨i, h⟩).priority = "ALTA" →
     ∃ h2 : i < (Emergency.mobilizeTeam db now eid tid).work_orders.length,
       (Emergency.mobilizeTeam db now eid tid).work_orders.get ⟨i, h2⟩ =
         db.work_orders.get ⟨i, h⟩) := by
  have hlt : i < (Emergency.mobilizeTeam db now eid tid).work_orders.length := by
    rw [Emergency.mobilizeTeam_length]
    exact h
  constructor
  · intro ha hs hp
    simp only [List.get_eq_getElem] at ha hs hp
    have hc : Emergency.suspendCond tid db.work_orders[i] = true := by
      rcases hs with hs | hs <;> simp [Emergency.suspendCond, ha, hs, hp]
    refine ⟨hlt, ?_, ?_⟩ <;>
      simp [Emergency.mobilizeTeam, List.get_eq_getElem, List.getElem_map, hc]
  · intro hp
    simp only [List.get_eq_getElem] at hp
    have hc : Emergency.suspendCond tid db.work_orders[i] = false := by
      simp [Emergency.suspendCond, hp]
    refine ⟨hlt, ?_⟩
    simp [Emergency.mobilizeTeam, List.get_eq_getElem, List.getElem_map, hc]

/-- Witness for C5 at `ordersDb`: mobilizing team 4 for emergency 1
suspends its `MEDIA` order (index 0) and appends the emergency note. -/
theorem C5_mobilize_witness :
    ∃ h2 : 0 < (Emergency.mobilizeTeam Emergency.ordersDb 77 1 4).work_orders.length,
      ((Emergency.mobilizeTeam Emergency.ordersDb 77 1 4).work_orders.get ⟨0, h2⟩).status = "sospeso" ∧
      ((Emergency.mobilizeTeam Emergency.ordersDb 77 1 4).work_orders.get ⟨0, h2⟩).notes =
        some (((Emergency.ordersDb.work_orders.get ⟨0, Emergency.ordersDb_first_lt⟩).notes.getD "")
          ++ Emergency.suspendNote 1) :=
  (C5_mobilize_suspends_non_alta Emergency.ordersDb 77 1 4 0 Emergency.ordersDb_first_lt).1
    rfl (Or.inl rfl) (by decide)

end Gisa

namespace Gisa.WorkOrderSvc

/-- The statuses admitted by the candidate query
(`t.status IN ('disponibile', 'in_viaggio', 'in_lavorazione')`). -/
def activeStatuses : List String := ["disponibile", "in_viaggio", "in_lavorazione"]

/-- The teams admitted by the candidate query's `WHERE` clause:
active and with an admitted status. -/
def eligibleTeams (db : SysDb) : List TeamRow :=
  db.teams.filter fun t => t.is_active && activeStatuses.contains t.status

/-- `COUNT(DISTINCT wo.id)` of the work orders assigned to the team whose
status is neither `completato` nor `validato`. -/
def activeOrderCount (db : SysDb) (teamId : Nat) : Nat :=
  ((db.work_orders.filter fun w =>
      w.assigned_team_id == some teamId &&
      w.status != "completato" && w.status != "validato").map fun w => w.id).dedup.length

/-- The candidate rows one eligible team contributes: the query
`LEFT JOIN`s `vehicles` on the team and groups by `(t.id, ..., v.id)`, so
a team with `k ≥ 1` assigned vehicles yields `k` rows and a team with none
yields a single row with `vehicle_id = NULL`. -/
def teamRows (db : SysDb) (t : TeamRow) : List CandRow :=
  let awo := activeOrderCount db t.id
  let lon := t.current_location.map Prod.fst
  let lat := t.current_location.map Prod.snd
  match db.vehicles.filter fun v => v.assigned_team_id == some t.id with
  | [] => [⟨t.id, t.code, t.name, t.status, lon, lat, none, awo⟩]
  | v :: vs => (v :: vs).map fun veh =>
      ⟨t.id, t.code, t.name, t.status, lon, lat, some veh.id, awo⟩

/-- Each eligible team contributes at least one candidate row. -/
theorem teamRows_ne_nil (db : SysDb) (t : TeamRow) : teamRows db t ≠ [] := by
  unfold teamRows
  cases db.vehicles.filter fun v => v.assigned_team_id == some t.id <;> simp

/-- The descending order used by `scoredTeams.sort((a, b) =>
b.total_score - a.total_score)`. -/
def scoreGe (a b : ScoredTeam) : Prop := b.total_score ≤ a.total_score

instance : DecidableRel scoreGe :=
  fun a b => inferInstanceAs (Decidable (b.total_score ≤ a.total_score))

instance : IsTotal ScoredTeam scoreGe :=
  ⟨fun a b => le_total b.total_score a.total_score⟩

instance : IsTrans ScoredTeam scoreGe :=
  ⟨fun _ _ _ hab hbc => le_trans hbc hab⟩

/-- `calculateOptimalAssignment(workOrderId)`: loads the order (error
`ODL non trovato` when absent), builds the candidate rows (error
`Nessuna squadra disponibile` when there are none), scores each row with
the configured weights and returns the scored entries sorted by descending
total score (V8's `sort` is stable; ties keep query order). -/
def calculateOptimalAssignment (getDistance : ℚ → ℚ → ℚ → ℚ → ℚ)
    (db : SysDb) (today : Int) (workOrderId : Nat) :
    Except JsError (List ScoredTeam) :=
  match db.work_orders.find? fun w => w.id == workOrderId with
  | none => Except.error (JsError.message ("ODL non trovato"))
  | some workOrder =>
      let teams := (eligibleTeams db).flatMap (teamRows db)
      if teams.length == 0 then
        Except.error (JsError.message ("Nessuna squadra disponibile"))
      else
        let weights := getScoringWeights db.weightsConfig
        let scoredTeams := teams.map (scoreTeam getDistance db today weights workOrder)
        Except.ok (List.insertionSort scoreGe scoredTeams)

end Gisa.WorkOrderSvc

namespace Gisa.WorkOrderSvc

/-- A work order for the assignment counterexample/witness. -/
def c8Order : WoRow :=
  ⟨1, "altro", "ricevuto", none, some (9, 45),
   none, none, none, none, none, none, none, 0⟩

/-- A store with one eligible team (id 5) that has TWO assigned vehicles. -/
def c8Db : SysDb :=
  ⟨[c8Order], [⟨5, "SQ1", "Alpha", "disponibile", true, some (9, 45), 0⟩],
   [⟨70, some 5⟩, ⟨71, some 5⟩], [], [], ⟨none, none, none, none⟩⟩

/-- The list `calculateOptimalAssignment` returns on `c8Db`. -/
def c8Result : List ScoredTeam :=
  List.insertionSort scoreGe
    (((eligibleTeams c8Db).flatMap (teamRows c8Db)).map
      (scoreTeam zeroDistance c8Db 0 (getScoringWeights c8Db.weightsConfig) c8Order))

end Gisa.WorkOrderSvc

namespace Gisa

/-- C8 amended: `calculateOptimalAssignment` fails with `ODL non trovato`
exactly when the order is absent; fails with `Nessuna squadra disponibile`
exactly when (the order exists and) the set of active teams with status in
`{disponibile, in_viaggio, in_lavorazione}` is empty; and otherwise returns
one scored entry per ROW of the candidate query — one per (team, assigned
vehicle) pair, so a team with `k ≥ 1` vehicles appears `k` times — sorted
descending by aggregate score. -/
theorem C8_errors_and_sorted_amended (gd : ℚ → ℚ → ℚ → ℚ → ℚ)
    (db : WorkOrderSvc.SysDb) (today : Int) (woId : Nat) :
    ((WorkOrderSvc.calculateOptimalAssignment gd db today woId =
        Except.error (JsError.message ("ODL non trovato"))) ↔
      db.work_orders.find? (fun w => w.id == woId) = none) ∧
    ((WorkOrderSvc.calculateOptimalAssignment gd db today woId =
        Except.error (JsError.message ("Nessuna squadra disponibile"))) ↔
      (db.work_orders.find? (fun w => w.id == woId) ≠ none ∧
        WorkOrderSvc.eligibleTeams db = [])) ∧
    (∀ l, WorkOrderSvc.calculateOptimalAssignment gd db today woId = Except.ok l →
      l.length =
        ((WorkOrderSvc.eligibleTeams db).flatMap (WorkOrderSvc.teamRows db)).length ∧
      List.Sorted WorkOrderSvc.scoreGe l) := by
  have hmsg : ("ODL non trovato" : String) ≠ "Nessuna squadra disponibile" := by decide
  cases hf : db.work_orders.find? fun w => w.id == woId with
  | none =>
      refine ⟨?_, ?_, ?_⟩
      · simp [WorkOrderSvc.calculateOptimalAssignment, hf]
      · simp [WorkOrderSvc.calculateOptimalAssignment, hf, hmsg]
      · intro l hl
        simp [WorkOrderSvc.calculateOptimalAssignment, hf] at hl
  | some wo =>
      by_cases hT : ((WorkOrderSvc.eligibleTeams db).flatMap (WorkOrderSvc.teamRows db)).length = 0
      · have hTnil : (WorkOrderSvc.eligibleTeams db).flatMap (WorkOrderSvc.teamRows db) = [] :=
          List.length_eq_zero.1 hT
        have hE : WorkOrderSvc.eligibleTeams db = [] := by
          have hall := List.flatMap_eq_nil_iff.1 hTnil
          cases hEc : WorkOrderSvc.eligibleTeams db with
          | nil => rfl
          | cons t ts =>
              exact absurd (hall t (hEc ▸ List.mem_cons_self t ts))
                (WorkOrderSvc.teamRows_ne_nil db t)
        refine ⟨?_, ?_, ?_⟩
        · simp [WorkOrderSvc.calculateOptimalAssignment, hf, hTnil, hmsg]
        · simp [WorkOrderSvc.calculateOptimalAssignment, hf, hTnil, hE]
        · intro l hl
          simp [WorkOrderSvc.calculateOptimalAssignment, hf, hTnil] at hl
      · have hTb : (((WorkOrderSvc.eligibleTeams db).flatMap (WorkOrderSvc.teamRows db)).length == 0)
            = false := by
          simpa using hT
        have hEne : ¬ WorkOrderSvc.eligibleTeams db = [] := by
          intro hE
          apply hT
          rw [hE]
          rfl
        have hsum : ¬ (List.map (List.length ∘ WorkOrderSvc.teamRows db)
            (WorkOrderSvc.eligibleTeams db)).sum = 0 := by
          simpa using hT
        refine ⟨?_, ?_, ?_⟩
        · simp [WorkOrderSvc.calculateOptimalAssignment, hf, hTb, hsum]
        · simp [WorkOrderSvc.calculateOptimalAssignment, hf, hTb, hsum, hEne]
        · intro l hl
          simp only [WorkOrderSvc.calculateOptimalAssignment, hf, hTb, Bool.false_eq_true,
            if_false, Except.ok.injEq] at hl
          subst hl
          refine ⟨?_, List.sorted_insertionSort _ _⟩
          rw [List.length_insertionSort, List.length_map]

/-- C8 counterexample: the claim says one scored entry per candidate team.
On `c8Db` there is exactly one eligible team, but it has two assigned
vehicles, so the candidate query returns two rows and the result holds TWO
scored entries for that single candidate. -/
theorem C8_row_per_vehicle_counterexample :
    (WorkOrderSvc.calculateOptimalAssignment WorkOrderSvc.zeroDistance
        WorkOrderSvc.c8Db 0 1).toOption.map List.length = some 2 ∧
    (WorkOrderSvc.eligibleTeams WorkOrderSvc.c8Db).length = 1 := by
  have hres : WorkOrderSvc.calculateOptimalAssignment WorkOrderSvc.zeroDistance
      WorkOrderSvc.c8Db 0 1 = Except.ok WorkOrderSvc.c8Result := rfl
  have h2 : WorkOrderSvc.c8Result.length = 2 := by
    unfold WorkOrderSvc.c8Result
    rw [List.length_insertionSort, List.length_map]
    rfl
  constructor
  · rw [hres]
    simp [Except.toOption, h2]
  · rfl

/-- Witness for C8 at `c8Db`: the returned list has one entry per candidate
row and is sorted descending by total score. -/
theorem C8_sorted_witness :
    WorkOrderSvc.c8Result.length =
      ((WorkOrderSvc.eligibleTeams WorkOrderSvc.c8Db).flatMap
        (WorkOrderSvc.teamRows WorkOrderSvc.c8Db)).length ∧
    List.Sorted WorkOrderSvc.scoreGe WorkOrderSvc.c8Result :=
  (C8_errors_and_sorted_amended WorkOrderSvc.zeroDistance WorkOrderSvc.c8Db 0 1).2.2
    WorkOrderSvc.c8Result rfl

end Gisa
